import Mathlib

/-
  Shallow embedding of the document-editing session model of PDFEditor
  (src/main.py).  The external PDF library (PyMuPDF / fitz) is modelled at
  its interface: a document is a list of pages, a page carries its extracted
  text and the list of committed library-level page marks; the filesystem is
  a partial map from paths to parseable documents.  Pure Python code is
  translated statement by statement; a caught exception becomes the
  (false, unchanged-state) branch of the corresponding operation.
-/

/-- A library-level page mark committed into the document, as produced by the
two fitz calls the code uses: add_highlight_annot over a rect, and
add_text_annot over a point (used for both the "text" and "note" kinds). -/
inductive FitzAnnot where
  | highlight (rect : ℚ × ℚ × ℚ × ℚ) (content : String)
  | textAnnot (point : ℚ × ℚ) (content : String)
deriving DecidableEq

/-- One page of an open fitz document: its extractable text plus the marks
committed into it. -/
structure FitzPage where
  text : String
  annots : List FitzAnnot
deriving DecidableEq

/-- An open fitz document: ordered pages plus the document metadata mapping. -/
structure Doc where
  pages : List FitzPage
  metadata : List (String × String)
deriving DecidableEq

/-- The filesystem as seen through fitz.open: paths that hold a parseable
document map to it, every other path fails to open. -/
def FS : Type := String → Option Doc

/-- Python list.insert semantics: insert at position i, clamping i to the
list length (an over-large index appends at the end). -/
def pyInsert (l : List α) (i : Nat) (x : α) : List α :=
  l.take i ++ x :: l.drop i

/-- Python list.pop(i) semantics for an in-range index: remove position i. -/
def pyPop (l : List α) (i : Nat) : List α :=
  l.take i ++ l.drop (i + 1)

/-- Apply f to the element at position i, leaving the list unchanged when i
is out of range. -/
def listModify (f : α → α) : List α → Nat → List α
  | [], _ => []
  | x :: xs, 0 => f x :: xs
  | x :: xs, n + 1 => x :: listModify f xs n

/-- PDFPage (src/main.py:60-87): the session's handle onto one page.  It
stores the page number it was created with and its own annotation list,
created empty; the pdf_doc back-reference is the session's document, passed
explicitly to get_text below.  (page_widget is GUI state, out of scope.) -/
structure PDFPage where
  page_num : Nat
  annotations : List FitzAnnot
deriving DecidableEq

/-- PDFPage.get_text (src/main.py:69-76): index the shared document with the
stored page number; any exception (no document, index out of range) is
caught and the empty string returned. -/
def PDFPage.get_text (doc : Option Doc) (p : PDFPage) : String :=
  match doc with
  | none => ""
  | some d =>
    match d.pages.get? p.page_num with
    | some pg => pg.text
    | none => ""

/-- PDFDocument (src/main.py:90-197): the document session state. -/
structure PDFDocument where
  file_path : Option String
  doc : Option Doc
  pages : List PDFPage
  metadata : List (String × String)
  current_page : Nat
  zoom_level : ℚ
deriving DecidableEq

/-- The state PDFDocument.__init__ establishes before any load
(src/main.py:93-99): no path, no document, no handles, empty metadata,
current page 0, zoom 1.0. -/
def PDFDocument.init : PDFDocument :=
  { file_path := none, doc := none, pages := [], metadata := [],
    current_page := 0, zoom_level := 1 }

/-- Fresh page handles, one per page in page order, each with page_num = its
position and an empty annotation list, as built by the comprehension
[PDFPage(i, self.doc) for i in range(len(self.doc))]. -/
def freshPages (n : Nat) : List PDFPage :=
  (List.range n).map (fun i => { page_num := i, annotations := [] })

/-- PDFDocument.load_document (src/main.py:104-115).  self.file_path is
assigned before fitz.open is attempted, so a failing open leaves the new
path behind; on success the document handle is replaced, the handle list is
rebuilt fresh and the metadata captured.  current_page and zoom_level are
not touched on either branch. -/
def PDFDocument.load_document (fs : FS) (path : String) (s : PDFDocument) :
    Bool × PDFDocument :=
  let s1 := { s with file_path := some path }
  match fs path with
  | none => (false, s1)
  | some d =>
      (true, { s1 with doc := some d, pages := freshPages d.pages.length,
                       metadata := d.metadata })

/-- PDFDocument.save_document (src/main.py:117-126).  save_path is
output_path or self.file_path (Python truthiness: an empty string falls back
to file_path); saving with no document or no path raises, caught to false.
Success leaves the session unchanged; disk I/O outcomes beyond these are
outside the model and no claim relies on the success branch. -/
def PDFDocument.save_document (s : PDFDocument) (output_path : Option String) :
    Bool × PDFDocument :=
  let save_path :=
    match output_path with
    | some p => if p = "" then s.file_path else some p
    | none => s.file_path
  match s.doc, save_path with
  | none, _ => (false, s)
  | some _, none => (false, s)
  | some _, some _ => (true, s)

/-- PDFDocument.delete_page (src/main.py:128-139).  The index is first
checked against len(self.pages); then self.doc.delete_page(page_num) runs
(raising if there is no document or the index is outside the document),
and only then self.pages.pop(page_num).  The surviving handles keep the
page_num they were created with. -/
def PDFDocument.delete_page (s : PDFDocument) (page_num : Int) :
    Bool × PDFDocument :=
  if 0 ≤ page_num ∧ page_num < s.pages.length then
    match s.doc with
    | none => (false, s)
    | some d =>
        let n := page_num.toNat
        if n < d.pages.length then
          (true, { s with doc := some { d with pages := pyPop d.pages n },
                          pages := pyPop s.pages n })
        else (false, s)
  else (false, s)

/-- PDFDocument.insert_page (src/main.py:141-152).  self.doc.new_page
(raising with no document or an index beyond the page count) creates a blank
page at the position; insert_text then writes the content (a blank content
leaves the blank page); finally a new handle carrying page_num is inserted
into self.pages at the same position (Python insert clamps). -/
def PDFDocument.insert_page (s : PDFDocument) (page_num : Nat)
    (content : String) : Bool × PDFDocument :=
  match s.doc with
  | none => (false, s)
  | some d =>
      if page_num ≤ d.pages.length then
        let d' := { d with
          pages := pyInsert d.pages page_num { text := content, annots := [] } }
        (true, { s with doc := some d',
                        pages := pyInsert s.pages page_num
                          { page_num := page_num, annotations := [] } })
      else (false, s)

/-- PDFDocument.merge_documents (src/main.py:154-165).  fitz.open on the
other path (failure caught to false), then self.doc.insert_pdf appends its
pages (raising when no document is loaded), the temporary handle is closed,
and the whole handle list is rebuilt fresh over the merged document. -/
def PDFDocument.merge_documents (fs : FS) (s : PDFDocument)
    (other_pdf_path : String) : Bool × PDFDocument :=
  match fs other_pdf_path with
  | none => (false, s)
  | some od =>
      match s.doc with
      | none => (false, s)
      | some d =>
          let d' := { d with pages := d.pages ++ od.pages }
          (true, { s with doc := some d',
                          pages := freshPages d'.pages.length })

/-- PDFDocument.add_annotation (src/main.py:180-197), named add_annot here.
self.doc[page_num] raises with no document or an out-of-range index (caught
to false); a known kind commits the corresponding fitz mark into the page
and set_info records the content; an unknown kind creates nothing and the
following annot.set_info raises NameError, caught to false.  The session's
page handles — in particular their annotation lists — are never written. -/
def PDFDocument.add_annot (s : PDFDocument) (page_num : Nat)
    (annotation_type : String) (rect : ℚ × ℚ × ℚ × ℚ) (content : String) :
    Bool × PDFDocument :=
  match s.doc with
  | none => (false, s)
  | some d =>
      if page_num < d.pages.length then
        if annotation_type = "highlight" then
          let a := FitzAnnot.highlight rect content
          (true, { s with doc := some { d with
            pages := listModify (fun pg => { pg with annots := pg.annots ++ [a] })
              d.pages page_num } })
        else if annotation_type = "text" ∨ annotation_type = "note" then
          let a := FitzAnnot.textAnnot (rect.1, rect.2.1) content
          (true, { s with doc := some { d with
            pages := listModify (fun pg => { pg with annots := pg.annots ++ [a] })
              d.pages page_num } })
        else (false, s)
      else (false, s)

/-- PDFViewerScreen.zoom_in (src/main.py:512-517): the session's zoom level
becomes min(zoom_level * 1.2, 3.0). -/
def zoom_in (s : PDFDocument) : PDFDocument :=
  { s with zoom_level := min (s.zoom_level * (6 / 5)) 3 }

/-- PDFViewerScreen.zoom_out (src/main.py:519-524): the session's zoom level
becomes max(zoom_level / 1.2, 0.3). -/
def zoom_out (s : PDFDocument) : PDFDocument :=
  { s with zoom_level := max (s.zoom_level / (6 / 5)) (3 / 10) }

/-- A user zoom intent: one press of the zoom-in or zoom-out button. -/
inductive ZoomStep where
  | zin
  | zout
deriving DecidableEq

/-- Apply one zoom step to the session. -/
def applyZoom (s : PDFDocument) : ZoomStep → PDFDocument
  | .zin => zoom_in s
  | .zout => zoom_out s

/-- Run a finite sequence of zoom steps from a session. -/
def runZoom (steps : List ZoomStep) (s : PDFDocument) : PDFDocument :=
  steps.foldl applyZoom s

/-- The document's page count as the session sees it (0 with no document). -/
def docPageCount (s : PDFDocument) : Nat :=
  match s.doc with
  | none => 0
  | some d => d.pages.length

/-- The session invariant of the spec: the page-handle sequence length
equals the underlying document's page count. -/
def pagesInv (s : PDFDocument) : Prop :=
  s.pages.length = docPageCount s

instance (s : PDFDocument) : Decidable (pagesInv s) := by
  unfold pagesInv; infer_instance

/-- The mutating operations the page-count invariant quantifies over. -/
inductive MutOp where
  | loadOp (path : String)
  | deleteOp (i : Int)
  | insertOp (i : Nat) (content : String)
  | mergeOp (path : String)

/-- Run one mutating operation on the session. -/
def runOp (fs : FS) (s : PDFDocument) : MutOp → Bool × PDFDocument
  | .loadOp p => PDFDocument.load_document fs p s
  | .deleteOp i => s.delete_page i
  | .insertOp i c => s.insert_page i c
  | .mergeOp p => PDFDocument.merge_documents fs s p

/-- extract_text() on the session's page handle at position i of the handle
sequence (empty when there is no such handle). -/
def pageTextAt (s : PDFDocument) (i : Nat) : String :=
  match s.pages.get? i with
  | some p => PDFPage.get_text s.doc p
  | none => ""

/-- Total number of marks committed into the document (0 with none loaded). -/
def docAnnotCount (s : PDFDocument) : Nat :=
  match s.doc with
  | none => 0
  | some d => (d.pages.map (fun pg => pg.annots.length)).sum

/-! Concrete fixtures used by counterexamples and witnesses. -/

/-- A filesystem on which every open fails. -/
def fsEmpty : FS := fun _ => none

/-- A one-page parseable document. -/
def oneDoc : Doc :=
  { pages := [{ text := "x", annots := [] }], metadata := [] }

/-- A two-page document with texts "Hello" and "World". -/
def twoPageDoc : Doc :=
  { pages := [{ text := "Hello", annots := [] },
              { text := "World", annots := [] }], metadata := [] }

/-- A six-page parseable document. -/
def sixDoc : Doc :=
  { pages := (List.range 6).map (fun i => { text := toString i, annots := [] }),
    metadata := [] }

/-- A filesystem holding the one-page document at "b.pdf". -/
def fsOne : FS := fun p => if p = "b.pdf" then some oneDoc else none

/-- A session that already has a backing path but no document. -/
def s_with_path : PDFDocument :=
  { file_path := some "a.pdf", doc := none, pages := [], metadata := [],
    current_page := 0, zoom_level := 1 }

/-- A session over an empty document (the state create_new_pdf reaches
before inserting a page: a fresh PDFDocument whose doc is fitz.open()). -/
def s_empty : PDFDocument :=
  { file_path := none, doc := some { pages := [], metadata := [] },
    pages := [], metadata := [], current_page := 0, zoom_level := 1 }

/-- A session holding the two-page document with its two handles. -/
def s_two : PDFDocument :=
  { file_path := none, doc := some twoPageDoc,
    pages := [{ page_num := 0, annotations := [] },
              { page_num := 1, annotations := [] }],
    metadata := [], current_page := 0, zoom_level := 1 }

/-- A session viewing page 5 of the six-page document. -/
def s_cur5 : PDFDocument :=
  { file_path := some "six.pdf", doc := some sixDoc, pages := freshPages 6,
    metadata := [], current_page := 5, zoom_level := 1 }

/-- The annotation kinds the add-annotation dispatch recognises. -/
def knownKind (k : String) : Prop :=
  k = "highlight" ∨ k = "text" ∨ k = "note"

instance (k : String) : Decidable (knownKind k) := by
  unfold knownKind; infer_instance

/-! Helper lemmas. -/

theorem pyInsert_length (l : List α) (i : Nat) (x : α) :
    (pyInsert l i x).length = l.length + 1 := by
  simp [pyInsert]
  omega

theorem pyPop_length (l : List α) (i : Nat) (h : i < l.length) :
    (pyPop l i).length = l.length - 1 := by
  simp [pyPop]
  omega

theorem freshPages_length (n : Nat) : (freshPages n).length = n := by
  simp [freshPages]

/-! C1: load failure leaves state intact, except it does not -/

/-- C1 counterexample: on a session whose backing path is "a.pdf", a failing
load of "missing.pdf" returns the failure indicator but has already
overwritten the backing path, so not every field is unchanged. -/
theorem C1_load_failure_mutates_path :
    (PDFDocument.load_document fsEmpty "missing.pdf" s_with_path).1 = false ∧
    (PDFDocument.load_document fsEmpty "missing.pdf" s_with_path).2.file_path ≠
      s_with_path.file_path := by
  decide

/-- C1 (amended): if load(path) fails, it returns the failure indicator and
leaves the document handle, page-handle sequence, metadata, current-page
index and zoom factor unchanged; the backing path, however, is overwritten
with the attempted path before the open is tried. -/
theorem C1_load_failure_frame (fs : FS) (path : String) (s : PDFDocument)
    (h : fs path = none) :
    PDFDocument.load_document fs path s =
      (false, { s with file_path := some path }) := by
  simp [PDFDocument.load_document, h]

/-- C1 witness: the amended failure frame at a concrete failing load. -/
theorem C1_load_failure_frame_witness :
    PDFDocument.load_document fsEmpty "missing.pdf" s_with_path =
      (false, { s_with_path with file_path := some "missing.pdf" }) :=
  C1_load_failure_frame fsEmpty "missing.pdf" s_with_path rfl

/-! C6: load and the current-page index -/

/-- C6 counterexample: a session viewing page 5 successfully loads the
one-page document at "b.pdf", yet its current-page index is still 5, not 0:
load_document never writes current_page. -/
theorem C6_load_keeps_nonzero_current_page :
    (PDFDocument.load_document fsOne "b.pdf" s_cur5).1 = true ∧
    (PDFDocument.load_document fsOne "b.pdf" s_cur5).2.current_page ≠ 0 := by
  decide

/-- C6 (amended): load_document leaves the current-page index exactly as it
was on every branch; it is 0 after a load only because a freshly constructed
session starts at 0, as on a session in the init state. -/
theorem C6_load_preserves_current_page (fs : FS) (path : String)
    (s : PDFDocument) :
    (PDFDocument.load_document fs path s).2.current_page = s.current_page ∧
    (PDFDocument.load_document fs path PDFDocument.init).2.current_page = 0 := by
  constructor
  · rcases hfs : fs path with _ | d <;>
      simp [PDFDocument.load_document, hfs]
  · rcases hfs : fs path with _ | d <;>
      simp [PDFDocument.load_document, PDFDocument.init, hfs]

/-! C7: delete_page on an out-of-range index -/

/-- C7: for every index outside [0, page count), delete_page returns false
and leaves the whole session (page count and handle sequence included)
unchanged. -/
theorem C7_delete_page_out_of_range (s : PDFDocument) (i : Int)
    (h : i < 0 ∨ (s.pages.length : Int) ≤ i) :
    s.delete_page i = (false, s) := by
  unfold PDFDocument.delete_page
  split
  · next hc => exfalso; omega
  · rfl

/-- C7 witness: deleting index 5 of the two-page session is a no-op
failure. -/
theorem C7_delete_page_out_of_range_witness :
    s_two.delete_page 5 = (false, s_two) :=
  C7_delete_page_out_of_range s_two 5 (Or.inr (by decide))

/-! C8: the zoom factor stays inside [0.3, 3.0] -/

theorem applyZoom_bounds (s : PDFDocument) (st : ZoomStep)
    (h1 : 3 / 10 ≤ s.zoom_level) (h2 : s.zoom_level ≤ 3) :
    3 / 10 ≤ (applyZoom s st).zoom_level ∧ (applyZoom s st).zoom_level ≤ 3 := by
  cases st with
  | zin =>
      simp only [applyZoom, zoom_in]
      constructor
      · apply le_min _ (by norm_num)
        nlinarith
      · exact min_le_right _ _
  | zout =>
      simp only [applyZoom, zoom_out]
      constructor
      · exact le_max_right _ _
      · apply max_le _ (by norm_num)
        rw [div_le_iff₀ (by norm_num : (0 : ℚ) < 6 / 5)]
        nlinarith

theorem runZoom_bounds (steps : List ZoomStep) (s : PDFDocument)
    (h1 : 3 / 10 ≤ s.zoom_level) (h2 : s.zoom_level ≤ 3) :
    3 / 10 ≤ (runZoom steps s).zoom_level ∧ (runZoom steps s).zoom_level ≤ 3 := by
  induction steps generalizing s with
  | nil => exact ⟨h1, h2⟩
  | cons st rest ih =>
      have h := applyZoom_bounds s st h1 h2
      simpa [runZoom, List.foldl] using ih (applyZoom s st) h.1 h.2

/-- C8: starting from the initial zoom factor 1.0, any finite sequence of
zoom-in steps (times 1.2 clamped at 3.0) and zoom-out steps (divided by 1.2
clamped at 0.3) leaves the zoom factor inside [0.3, 3.0]. -/
theorem C8_zoom_level_bounded (steps : List ZoomStep) :
    3 / 10 ≤ (runZoom steps PDFDocument.init).zoom_level ∧
    (runZoom steps PDFDocument.init).zoom_level ≤ 3 :=
  runZoom_bounds steps PDFDocument.init
    (by norm_num [PDFDocument.init]) (by norm_num [PDFDocument.init])

/-! C2: delete_page and the surviving handles' positions -/

/-- C2: deleting page 0 of the two-page session succeeds, removes the handle
at position 0 and shortens the sequence by one, but the surviving handle
keeps the page position 1 it was created with instead of moving down to 0,
and reading through it now yields "" because it points past the end of the
one-page document. -/
theorem C2_delete_keeps_stale_page_num :
    (s_two.delete_page 0).1 = true ∧
    (s_two.delete_page 0).2.pages.length = 1 ∧
    (s_two.delete_page 0).2.pages.get? 0 =
      some { page_num := 1, annotations := [] } ∧
    pageTextAt (s_two.delete_page 0).2 0 = "" := by
  decide

/-! C3: the insert/insert/delete scenario -/

/-- C3: from the empty session, insert_page(0, "Hello") gives one page whose
handle reads "Hello"; insert_page(1, "World") gives two pages; but after
delete_page(0) the remaining handle reads "", not "World": it still carries
page_num 1 while the document has a single page. -/
theorem C3_scenario_evaluation :
    (s_empty.insert_page 0 "Hello").2.pages.length = 1 ∧
    pageTextAt (s_empty.insert_page 0 "Hello").2 0 = "Hello" ∧
    ((s_empty.insert_page 0 "Hello").2.insert_page 1 "World").2.pages.length
      = 2 ∧
    (((s_empty.insert_page 0 "Hello").2.insert_page 1
        "World").2.delete_page 0).2.pages.length = 1 ∧
    pageTextAt (((s_empty.insert_page 0 "Hello").2.insert_page 1
        "World").2.delete_page 0).2 0 = "" := by
  decide

/-! C4: the page-handle/page-count invariant -/

/-- C4: on a session satisfying the invariant, every mutating operation
(load, delete_page, insert_page, merge) that returns success re-establishes
that the page-handle sequence length equals the document's page count. -/
theorem C4_page_handle_invariant (fs : FS) (s : PDFDocument) (op : MutOp)
    (h : pagesInv s) :
    (runOp fs s op).1 = true → pagesInv (runOp fs s op).2 := by
  cases op with
  | loadOp p =>
      rcases hfs : fs p with _ | d <;>
        simp [runOp, PDFDocument.load_document, hfs, pagesInv, docPageCount,
          freshPages_length]
  | deleteOp i =>
      simp only [runOp]
      rcases hdoc : s.doc with _ | d
      · simp [PDFDocument.delete_page, hdoc]
      · by_cases hc : 0 ≤ i ∧ i < (s.pages.length : Int)
        · by_cases hn : i.toNat < d.pages.length
          · have e : s.delete_page i =
                (true, { s with
                  doc := some { d with pages := pyPop d.pages i.toNat },
                  pages := pyPop s.pages i.toNat }) := by
              unfold PDFDocument.delete_page
              rw [hdoc, if_pos hc]
              simp [hn]
            rw [e]
            intro _
            have hInv : s.pages.length = d.pages.length := by
              simpa [pagesInv, docPageCount, hdoc] using h
            have hnn : i.toNat < s.pages.length := by omega
            show (pyPop s.pages i.toNat).length = (pyPop d.pages i.toNat).length
            rw [pyPop_length s.pages i.toNat hnn,
              pyPop_length d.pages i.toNat hn]
            omega
          · simp [PDFDocument.delete_page, hdoc, hn]
        · simp [PDFDocument.delete_page, hc]
  | insertOp j c =>
      simp only [runOp]
      rcases hdoc : s.doc with _ | d
      · simp [PDFDocument.insert_page, hdoc]
      · by_cases hle : j ≤ d.pages.length
        · have e : s.insert_page j c =
              (true, { s with
                doc := some { d with
                  pages := pyInsert d.pages j { text := c, annots := [] } },
                pages := pyInsert s.pages j
                  { page_num := j, annotations := [] } }) := by
            unfold PDFDocument.insert_page
            rw [hdoc]
            simp [hle]
          rw [e]
          intro _
          have hInv : s.pages.length = d.pages.length := by
            simpa [pagesInv, docPageCount, hdoc] using h
          show (pyInsert s.pages j { page_num := j, annotations := [] }).length
            = (pyInsert d.pages j { text := c, annots := [] }).length
          rw [pyInsert_length, pyInsert_length]
          omega
        · simp [PDFDocument.insert_page, hdoc, hle]
  | mergeOp p =>
      rcases hfs : fs p with _ | od
      · simp [runOp, PDFDocument.merge_documents, hfs]
      · rcases hdoc : s.doc with _ | d
        · simp [runOp, PDFDocument.merge_documents, hfs, hdoc]
        · intro _
          simp [runOp, PDFDocument.merge_documents, hfs, hdoc, pagesInv,
            docPageCount, freshPages_length]

/-- C4 witness: the invariant holds on the empty session and is
re-established by a successful insert_page. -/
theorem C4_page_handle_invariant_witness :
    pagesInv s_empty ∧ pagesInv (runOp fsEmpty s_empty (MutOp.insertOp 0 "abc")).2 :=
  ⟨by decide,
   C4_page_handle_invariant fsEmpty s_empty (MutOp.insertOp 0 "abc")
     (by decide) (by decide)⟩

/-! C5: add-annotation commits to the document, not to the handle -/

theorem listModify_append_annot_sum (l : List FitzPage) (i : Nat)
    (a : FitzAnnot) (h : i < l.length) :
    ((listModify (fun pg => { pg with annots := pg.annots ++ [a] }) l i).map
        (fun pg => pg.annots.length)).sum
      = ((l.map fun pg => pg.annots.length)).sum + 1 := by
  induction l generalizing i with
  | nil => simp at h
  | cons x xs ih =>
      cases i with
      | zero => simp [listModify]; omega
      | succ n =>
          simp only [listModify, List.map_cons, List.sum_cons]
          rw [ih n (by simpa using h)]
          omega

/-- C5 counterexample: add-annotation with kind "highlight" on a valid index
of the two-page session returns success, yet the addressed Page Handle's
annotation list is exactly as before — empty — so no descriptor was appended
to it. -/
theorem C5_handle_list_not_appended :
    (PDFDocument.add_annot s_two 0 "highlight" (0, 0, 10, 10) "c").1 = true ∧
    (PDFDocument.add_annot s_two 0 "highlight" (0, 0, 10, 10) "c").2.pages.get? 0
      = some { page_num := 0, annotations := [] } := by
  decide

/-- C5 (amended): on a session with a loaded document and a valid page
index, add-annotation succeeds exactly for the kinds highlight, text and
note; a known kind commits one more annotation into the underlying document
while the Page Handle sequence (and so every handle's annotation list) is
left untouched, and an unknown kind fails with the session unchanged. -/
theorem C5_add_annot_spec (s : PDFDocument) (d : Doc) (i : Nat) (k : String)
    (r : ℚ × ℚ × ℚ × ℚ) (c : String)
    (hdoc : s.doc = some d) (hi : i < d.pages.length) :
    ((PDFDocument.add_annot s i k r c).1 = true ↔ knownKind k) ∧
    (knownKind k →
      (PDFDocument.add_annot s i k r c).2.pages = s.pages ∧
      docAnnotCount (PDFDocument.add_annot s i k r c).2 = docAnnotCount s + 1) ∧
    (¬ knownKind k → PDFDocument.add_annot s i k r c = (false, s)) := by
  unfold PDFDocument.add_annot
  rw [hdoc]
  by_cases h1 : k = "highlight"
  · subst h1
    simp [knownKind, hi, docAnnotCount, hdoc,
      listModify_append_annot_sum d.pages i _ hi]
  · by_cases h2 : k = "text" ∨ k = "note"
    · refine ⟨?_, ?_, ?_⟩
      · simp [knownKind, hi, h1, h2]
      · intro _
        simp [hi, h1, h2, docAnnotCount, hdoc,
          listModify_append_annot_sum d.pages i _ hi]
      · intro hk
        exact absurd (Or.inr h2) hk
    · refine ⟨?_, ?_, ?_⟩
      · simp [knownKind, hi, h1, h2]
      · intro hk
        exact absurd hk (by simp [knownKind, h1, h2])
      · intro _
        simp [hi, h1, h2]

/-- C5 witness: the amended statement at the concrete highlight call on the
two-page session. -/
theorem C5_add_annot_spec_witness :
    (PDFDocument.add_annot s_two 0 "highlight" (0, 0, 1, 1) "c").1 = true ∧
    (PDFDocument.add_annot s_two 0 "highlight" (0, 0, 1, 1) "c").2.pages
      = s_two.pages ∧
    docAnnotCount (PDFDocument.add_annot s_two 0 "highlight" (0, 0, 1, 1) "c").2
      = docAnnotCount s_two + 1 := by
  have h := C5_add_annot_spec s_two twoPageDoc 0 "highlight" (0, 0, 1, 1) "c"
    rfl (by decide)
  exact ⟨h.1.mpr (Or.inl rfl), (h.2.1 (Or.inl rfl)).1, (h.2.1 (Or.inl rfl)).2⟩

/-! C9: merge discards every old handle and its annotation list -/

theorem freshPages_all_annotations_empty (n : Nat) :
    ((freshPages n).all fun pg => pg.annotations.isEmpty) = true := by
  simp [freshPages, List.all_eq_true]

/-- C9: when merge succeeds, the session's entire Page Handle sequence is
the freshly rebuilt one — one new handle per page of the merged document —
and every handle in it carries an empty annotation list, so no handle (and
no annotation list) from before the merge survives. -/
theorem C9_merge_replaces_all_handles (fs : FS) (s : PDFDocument) (p : String)
    (h : (PDFDocument.merge_documents fs s p).1 = true) :
    (PDFDocument.merge_documents fs s p).2.pages =
      freshPages (docPageCount (PDFDocument.merge_documents fs s p).2) ∧
    ((PDFDocument.merge_documents fs s p).2.pages.all
      fun pg => pg.annotations.isEmpty) = true := by
  rcases hfs : fs p with _ | od
  · rw [PDFDocument.merge_documents, hfs] at h
    simp at h
  · rcases hdoc : s.doc with _ | d
    · rw [PDFDocument.merge_documents, hfs, hdoc] at h
      simp at h
    · constructor
      · rw [PDFDocument.merge_documents, hfs, hdoc]
        simp [docPageCount]
      · rw [PDFDocument.merge_documents, hfs, hdoc]
        simp only []
        exact freshPages_all_annotations_empty _

/-- C9 witness: merging "b.pdf" into the two-page session. -/
theorem C9_merge_replaces_all_handles_witness :
    (PDFDocument.merge_documents fsOne s_two "b.pdf").2.pages =
      freshPages (docPageCount (PDFDocument.merge_documents fsOne s_two "b.pdf").2) ∧
    ((PDFDocument.merge_documents fsOne s_two "b.pdf").2.pages.all
      fun pg => pg.annotations.isEmpty) = true :=
  C9_merge_replaces_all_handles fsOne s_two "b.pdf" (by decide)

/-! C10: every mutating call on a document-less session fails quietly -/

/-- C10: on a session with no document handle, save, insert_page, merge and
add-annotation return false, and delete_page returns false for every index;
each caught exception is converted into the boolean failure signal. -/
theorem C10_no_document_all_ops_fail (s : PDFDocument) (fs : FS)
    (output_path : Option String) (i : Int) (j : Nat) (c : String) (p : String)
    (k : String) (r : ℚ × ℚ × ℚ × ℚ)
    (h : s.doc = none) :
    (PDFDocument.save_document s output_path).1 = false ∧
    (PDFDocument.insert_page s j c).1 = false ∧
    (PDFDocument.merge_documents fs s p).1 = false ∧
    (PDFDocument.add_annot s j k r c).1 = false ∧
    (PDFDocument.delete_page s i).1 = false := by
  refine ⟨?_, ?_, ?_, ?_, ?_⟩
  · unfold PDFDocument.save_document
    rw [h]
  · simp [PDFDocument.insert_page, h]
  · unfold PDFDocument.merge_documents
    rcases hfs : fs p with _ | od <;> simp [h]
  · simp [PDFDocument.add_annot, h]
  · unfold PDFDocument.delete_page
    rw [h]
    split <;> rfl

/-- C10 witness: the five operations at concrete arguments on the initial
(document-less) session, with a filesystem on which the merge source opens
successfully. -/
theorem C10_no_document_all_ops_fail_witness :
    (PDFDocument.save_document PDFDocument.init (some "o.pdf")).1 = false ∧
    (PDFDocument.insert_page PDFDocument.init 0 "c").1 = false ∧
    (PDFDocument.merge_documents fsOne PDFDocument.init "b.pdf").1 = false ∧
    (PDFDocument.add_annot PDFDocument.init 0 "highlight" (0, 0, 1, 1) "c").1
      = false ∧
    (PDFDocument.delete_page PDFDocument.init 0).1 = false :=
  C10_no_document_all_ops_fail PDFDocument.init fsOne (some "o.pdf") 0 0 "c"
    "b.pdf" "highlight" (0, 0, 1, 1) rfl
